import Mathlib

/-!
Shallow embedding of the payment-request utilities in
`src/client/blocks/stripe-utils/utils.js` of the woocommerce-gateway-stripe
client code, together with theorems settling the specification claims.

JavaScript strings are embedded as Lean `String`; JS `null`/absent values as
`Option`; thrown exceptions as `Except String`.  Globals read inside the
source functions (the settings blob returned by `getSetting`, the
`wc_stripe_payment_request_params` object) are passed as explicit arguments.
-/

namespace StripeUtils

/-! ## JavaScript primitives used by the source -/

/-- A JavaScript value as far as the `switch` statement in
`getErrorMessageForTypeAndCode` needs: the discriminant is a string, while
the case label `isNonFriendlyError( type )` evaluates to a boolean.  JS
`switch` compares discriminant and case label with strict equality `===`,
which is `false` whenever the two operands have different types. -/
inductive JsVal where
  | str (s : String)
  | bool (b : Bool)
deriving DecidableEq, Repr

/-- JavaScript strict equality `===` restricted to the value shapes above:
values of different runtime types are never strictly equal. -/
def jsStrictEq : JsVal → JsVal → Bool
  | .str a, .str b => a == b
  | .bool a, .bool b => a == b
  | _, _ => false

/-- Remove the first occurrence of a space from a character list.
`String.prototype.replace` with the string pattern `' '` and replacement
`''` replaces only the FIRST occurrence of the pattern. -/
def removeFirstSpace : List Char → List Char
  | [] => []
  | c :: cs => if c = ' ' then cs else c :: removeFirstSpace cs

/-- Embedding of `postcode.replace( ' ', '' )` from the source: only the
first space is removed. -/
def jsReplaceSpaceOnce (s : String) : String :=
  String.mk (removeFirstSpace s.data)

/-- Embedding of `String.prototype.toUpperCase` (ASCII fragment, which
covers postcodes). -/
def jsToUpperCase (s : String) : String :=
  String.mk (s.data.map Char.toUpper)

/-! ## Configuration access (`getStripeServerData`, `getApiKey`) -/

/-- The platform settings blob `stripe_data`.  `publicKey` and
`stripeTotalLabel` are the fields the embedded functions read; an empty
string models a falsy/absent field value. -/
structure StripeServerData where
  publicKey : String
  stripeTotalLabel : String
deriving DecidableEq, Repr

/-- `getStripeServerData`: reads `getSetting( 'stripe_data', null )` (here
the explicit argument `setting`, `none` = absent/null) and throws when the
blob is falsy. -/
def getStripeServerData (setting : Option StripeServerData) :
    Except String StripeServerData :=
  match setting with
  | none => .error "Stripe initialization data is not available"
  | some stripeServerData => .ok stripeServerData

/-- `getApiKey`: reads `getStripeServerData().publicKey` and throws when the
key is falsy (for a string: empty). -/
def getApiKey (setting : Option StripeServerData) : Except String String :=
  match getStripeServerData setting with
  | .error e => .error e
  | .ok data =>
    if data.publicKey = "" then
      .error "There is no api key available for stripe. Make sure it is available on the wc.stripe_data.stripe.key property."
    else
      .ok data.publicKey

/-! ## Cart and payment-request data model -/

/-- A raw cart total / line item as provided by checkout: the monetary
amount sits in `value` (minor units). -/
structure CartTotalItem where
  label : String
  value : Int
deriving DecidableEq, Repr

/-- A Stripe `PaymentItem`: label plus `amount`. -/
structure PaymentItem where
  label : String
  amount : Int
deriving DecidableEq, Repr

/-- Modelled from the spec: `normalizeLineItems` lives in
`src/client/blocks/stripe-utils/normalize.js`, which is not among the
provided sources; per the spec the ordered sequence of raw line items is
mapped 1:1, order-preserving, into `PaymentItem` records with each `amount`
equal to the source item's value, with no filtering and no deduplication. -/
def normalizeLineItems (cartTotalItems : List CartTotalItem) :
    List PaymentItem :=
  cartTotalItems.map (fun item => { label := item.label, amount := item.value })

/-- `getTotalPaymentItem`: builds the total `PaymentItem` from the cart
total, with label `getStripeServerData().stripeTotalLabel || __( 'Total' )`
(the localization function `__` is the identity in the default locale).
The settings blob is the explicit argument `sd`. -/
def getTotalPaymentItem (sd : StripeServerData) (total : CartTotalItem) :
    PaymentItem :=
  { label := if sd.stripeTotalLabel = "" then "Total" else sd.stripeTotalLabel,
    amount := total.value }

/-- The options object assembled by the request builders and handed to
`stripe.paymentRequest( options )`. -/
structure PaymentRequestOptions where
  total : PaymentItem
  currency : String
  country : String
  requestPayerName : Bool
  requestPayerEmail : Bool
  requestPayerPhone : Bool
  requestShipping : Bool
  displayItems : List PaymentItem
deriving DecidableEq, Repr

/-- The destructured argument of `getPaymentRequest` (the `stripe` handle
itself is dropped: the function's observable output is the options object it
passes to `stripe.paymentRequest`). -/
structure GetPaymentRequestArgs where
  total : CartTotalItem
  currencyCode : String
  countryCode : String
  shippingRequired : Bool
  cartTotalItems : List CartTotalItem
deriving DecidableEq, Repr

/-- `getPaymentRequest`: assembles the payment-request options.
`country` is `countryCode || 'US'` (for a string, falsy = empty). -/
def getPaymentRequest (sd : StripeServerData) (args : GetPaymentRequestArgs) :
    PaymentRequestOptions :=
  { total := getTotalPaymentItem sd args.total,
    currency := args.currencyCode,
    country := if args.countryCode = "" then "US" else args.countryCode,
    requestPayerName := true,
    requestPayerEmail := true,
    requestPayerPhone := true,
    requestShipping := args.shippingRequired,
    displayItems := normalizeLineItems args.cartTotalItems }

/-- `cart.order_data` as consumed by `createPaymentRequestUsingCart`. -/
structure OrderData where
  total : PaymentItem
  currency : String
  country_code : String
  displayItems : List PaymentItem
deriving DecidableEq, Repr

/-- The cart response consumed by `createPaymentRequestUsingCart`
(`shipping_required` is an arbitrary truthy/falsy value, embedded as its
truthiness). -/
structure CartResponse where
  order_data : OrderData
  shipping_required : Bool
deriving DecidableEq, Repr

/-- `createPaymentRequestUsingCart`: builds the options from the cart
response; `needsPayerPhone` is the global
`wc_stripe_payment_request_params.checkout.needs_payer_phone`.  After
assembling the options it remaps `country` from `'PR'` to `'US'`. -/
def createPaymentRequestUsingCart (needsPayerPhone : Bool)
    (cart : CartResponse) : PaymentRequestOptions :=
  let options : PaymentRequestOptions :=
    { total := cart.order_data.total,
      currency := cart.order_data.currency,
      country := cart.order_data.country_code,
      requestPayerName := true,
      requestPayerEmail := true,
      requestPayerPhone := needsPayerPhone,
      requestShipping := cart.shipping_required,
      displayItems := cart.order_data.displayItems }
  if options.country = "PR" then { options with country := "US" } else options

/-! ## Request updater -/

/-- The partial-update object passed to `paymentRequest.update( ... )`: it
contains exactly the fields `total`, `currency` and `displayItems`. -/
structure PaymentRequestUpdate where
  total : PaymentItem
  currency : String
  displayItems : List PaymentItem
deriving DecidableEq, Repr

/-- `updatePaymentRequest`: computes the update object handed to the
handle's `update` capability. -/
def updatePaymentRequest (sd : StripeServerData) (total : CartTotalItem)
    (currencyCode : String) (cartTotalItems : List CartTotalItem) :
    PaymentRequestUpdate :=
  { total := getTotalPaymentItem sd total,
    currency := currencyCode,
    displayItems := normalizeLineItems cartTotalItems }

/-- `updatePaymentRequestWithCart`: computes the update object from the
cart response. -/
def updatePaymentRequestWithCart (cart : CartResponse) :
    PaymentRequestUpdate :=
  { total := cart.order_data.total,
    currency := cart.order_data.currency,
    displayItems := cart.order_data.displayItems }

/-- Modelled from the spec: the vendor payment-request handle (external to
this repository) exposes an `update(partialConfig)` capability that applies
the partial config to the handle's configuration, leaving every field not
present in the partial config unchanged. -/
def applyPaymentRequestUpdate (opts : PaymentRequestOptions)
    (u : PaymentRequestUpdate) : PaymentRequestOptions :=
  { opts with
    total := u.total,
    currency := u.currency,
    displayItems := u.displayItems }

/-! ## Capability prober -/

/-- The resolved value of `paymentRequest.canMakePayment()`: `none` models
a falsy result (`null`/`false`); `some r` a truthy result object whose
`applePay` field records the truthiness of the result's `applePay` property
(`false` when the property is absent, as in the empty object `{}`). -/
structure CanMakePaymentResult where
  applePay : Bool
deriving DecidableEq, Repr

/-- The outcome `canDoPaymentRequest` resolves with. -/
structure CapabilityOutcome where
  canPay : Bool
  requestType : Option String
deriving DecidableEq, Repr

/-- `canDoPaymentRequest`: classification of the resolved probe result
(the promise plumbing is external; this is the resolution callback). -/
def canDoPaymentRequest (result : Option CanMakePaymentResult) :
    CapabilityOutcome :=
  match result with
  | some r =>
    { canPay := true,
      requestType := some (if r.applePay then "apple_pay" else "payment_request_api") }
  | none => { canPay := false, requestType := none }

/-! ## Error classifier

`errorTypes` and `errorCodes` are imported by `utils.js` from
`./constants`, a file of this repository that is not among the provided
sources; their string values are modelled from the spec's vocabulary.  The
claims only depend on the constants being pairwise distinct strings. -/

namespace errorTypes

/-- Modelled from the spec: the "invalid email" error-type variant of the
missing `constants.js`. -/
def INVALID_EMAIL : String := "email_invalid"

/-- Modelled from the spec: non-friendly error type (missing
`constants.js`). -/
def INVALID_REQUEST : String := "invalid_request"

/-- Modelled from the spec: non-friendly error type (missing
`constants.js`). -/
def API_CONNECTION : String := "api_connection"

/-- Modelled from the spec: non-friendly error type (missing
`constants.js`). -/
def API_ERROR : String := "api_error"

/-- Modelled from the spec: non-friendly error type (missing
`constants.js`). -/
def AUTHENTICATION_ERROR : String := "authentication_error"

/-- Modelled from the spec: non-friendly error type (missing
`constants.js`). -/
def RATE_LIMIT_ERROR : String := "rate_limit_error"

/-- Modelled from the spec: the card-error type (missing `constants.js`). -/
def CARD_ERROR : String := "card_error"

/-- Modelled from the spec: the validation-error type (missing
`constants.js`). -/
def VALIDATION_ERROR : String := "validation_error"

end errorTypes

namespace errorCodes

/-- Modelled from the spec: card-error code (missing `constants.js`). -/
def INVALID_NUMBER : String := "invalid_number"

/-- Modelled from the spec: card-error code (missing `constants.js`). -/
def INVALID_EXPIRY_MONTH : String := "invalid_expiry_month"

/-- Modelled from the spec: card-error code (missing `constants.js`). -/
def INVALID_EXPIRY_YEAR : String := "invalid_expiry_year"

/-- Modelled from the spec: card-error code (missing `constants.js`). -/
def INVALID_CVC : String := "invalid_cvc"

/-- Modelled from the spec: card-error code (missing `constants.js`). -/
def INCORRECT_NUMBER : String := "incorrect_number"

/-- Modelled from the spec: card-error code (missing `constants.js`). -/
def INCOMPLETE_NUMBER : String := "incomplete_number"

/-- Modelled from the spec: card-error code (missing `constants.js`). -/
def INCOMPLETE_CVC : String := "incomplete_cvc"

/-- Modelled from the spec: card-error code (missing `constants.js`). -/
def INCOMPLETE_EXPIRY : String := "incomplete_expiry"

/-- Modelled from the spec: card-error code (missing `constants.js`). -/
def EXPIRED_CARD : String := "expired_card"

/-- Modelled from the spec: card-error code (missing `constants.js`). -/
def INCORRECT_CVC : String := "incorrect_cvc"

/-- Modelled from the spec: card-error code (missing `constants.js`). -/
def INCORRECT_ZIP : String := "incorrect_zip"

/-- Modelled from the spec: card-error code (missing `constants.js`). -/
def INVALID_EXPIRY_YEAR_PAST : String := "invalid_expiry_year_past"

/-- Modelled from the spec: card-error code (missing `constants.js`). -/
def CARD_DECLINED : String := "card_declined"

/-- Modelled from the spec: card-error code (missing `constants.js`). -/
def MISSING : String := "missing"

/-- Modelled from the spec: card-error code (missing `constants.js`). -/
def PROCESSING_ERROR : String := "processing_error"

end errorCodes

/-- `isNonFriendlyError`: membership of the type in the closed array of
five non-friendly error types. -/
def isNonFriendlyError (type : String) : Bool :=
  [ errorTypes.INVALID_REQUEST,
    errorTypes.API_CONNECTION,
    errorTypes.API_ERROR,
    errorTypes.AUTHENTICATION_ERROR,
    errorTypes.RATE_LIMIT_ERROR ].contains type

/-- The `messages` object literal inside `getErrorMessageForCode`, as an
association list keyed by error code (the localization wrapper `__` is the
identity in the default locale). -/
def cardErrorMessages : List (String × String) :=
  [ (errorCodes.INVALID_NUMBER, "The card number is not a valid credit card number."),
    (errorCodes.INVALID_EXPIRY_MONTH, "The card expiration month is invalid."),
    (errorCodes.INVALID_EXPIRY_YEAR, "The card expiration year is invalid."),
    (errorCodes.INVALID_CVC, "The card security code is invalid."),
    (errorCodes.INCORRECT_NUMBER, "The card number is incorrect."),
    (errorCodes.INCOMPLETE_NUMBER, "The card number is incomplete."),
    (errorCodes.INCOMPLETE_CVC, "The card security code is incomplete."),
    (errorCodes.INCOMPLETE_EXPIRY, "The card expiration date is incomplete."),
    (errorCodes.EXPIRED_CARD, "The card has expired."),
    (errorCodes.INCORRECT_CVC, "The card security code is incorrect."),
    (errorCodes.INCORRECT_ZIP, "The card zip code failed validation."),
    (errorCodes.INVALID_EXPIRY_YEAR_PAST, "The card expiration year is in the past"),
    (errorCodes.CARD_DECLINED, "The card was declined."),
    (errorCodes.MISSING, "There is no card on a customer that is being charged."),
    (errorCodes.PROCESSING_ERROR, "An error occurred while processing the card.") ]

/-- The value shapes a JS property read `obj[ key ]` can produce on the
`messages` object literal: an own string-valued property, a member
inherited from `Object.prototype` (a function or object — truthy and not
a string), or `undefined`. -/
inductive JsPropertyRead where
  | str (s : String)
  | protoMember (name : String)
  | undefined
deriving DecidableEq, Repr

/-- A value the error classifier can produce where a message string is
expected: a proper string, or a truthy non-string member inherited from
`Object.prototype` (e.g. `messages[ 'constructor' ]`). -/
inductive MessageValue where
  | str (s : String)
  | protoMember (name : String)
deriving DecidableEq, Repr

/-- The property names an object literal inherits from `Object.prototype`
(the ECMAScript core members plus the Annex B accessors); reading any of
them on `messages` yields a truthy function or object, not a string. -/
def objectPrototypeKeys : List String :=
  [ "constructor", "hasOwnProperty", "isPrototypeOf",
    "propertyIsEnumerable", "toLocaleString", "toString", "valueOf",
    "__proto__", "__defineGetter__", "__defineSetter__",
    "__lookupGetter__", "__lookupSetter__" ]

/-- JS property read `own[ key ]` on an object literal with string-valued
own properties: own keys shadow the prototype; a miss walks up the
prototype chain to `Object.prototype` before yielding `undefined`. -/
def jsObjectGet (own : List (String × String)) (key : String) :
    JsPropertyRead :=
  match own.lookup key with
  | some v => .str v
  | none =>
    if key ∈ objectPrototypeKeys then .protoMember key else .undefined

/-- `getErrorMessageForCode`: `messages[ code ] || null`.  The property
read may hit an own key of the literal (a message string, truthy unless
empty — no table entry is), miss entirely (`undefined`, falsy, so `||`
yields `null`), or hit a member inherited from `Object.prototype`
(truthy, so `|| null` passes the inherited non-string value through). -/
def getErrorMessageForCode (code : String) : Option MessageValue :=
  match jsObjectGet cardErrorMessages code with
  | .str v => if v = "" then none else some (.str v)
  | .protoMember name => some (.protoMember name)
  | .undefined => none

/-- The fixed message returned for the invalid-email error type. -/
def invalidEmailMessage : String :=
  "Invalid email address, please correct and try again."

/-- The generic fallback message appearing in the non-friendly branch of
the source `switch`. -/
def genericErrorMessage : String :=
  "Unable to process this payment, please try again or use alternative method."

/-- `getErrorMessageForTypeAndCode`: the source is
`switch ( type ) { case errorTypes.INVALID_EMAIL: ... case
isNonFriendlyError( type ): ... case errorTypes.CARD_ERROR: ... case
errorTypes.VALIDATION_ERROR: ... }` followed by `return null`.  A JS
`switch` compares the discriminant with each case label under strict
equality, so each case is an `if` on `jsStrictEq` of the discriminant (the
string `type`) against the evaluated label; note the second label evaluates
to a boolean.  `none` is the final `return null`; `some ""` the empty
string returned for validation errors. -/
def getErrorMessageForTypeAndCode (type : String) (code : String) :
    Option MessageValue :=
  if jsStrictEq (.str type) (.str errorTypes.INVALID_EMAIL) then
    some (.str invalidEmailMessage)
  else if jsStrictEq (.str type) (.bool (isNonFriendlyError type)) then
    some (.str genericErrorMessage)
  else if jsStrictEq (.str type) (.str errorTypes.CARD_ERROR) then
    getErrorMessageForCode code
  else if jsStrictEq (.str type) (.str errorTypes.VALIDATION_ERROR) then
    some (.str "")
  else
    none

/-! ## Address normalizer -/

/-- The address record consumed by `pluckAddress` (`postcode` non-null, as
the source unconditionally calls string methods on it). -/
structure Address where
  country : String
  state : String
  city : String
  postcode : String
deriving DecidableEq, Repr

/-- `pluckAddress`: returns `{ country, state, city, postcode }` with
`postcode: postcode.replace( ' ', '' ).toUpperCase()`. -/
def pluckAddress (address : Address) : Address :=
  { country := address.country,
    state := address.state,
    city := address.city,
    postcode := jsToUpperCase (jsReplaceSpaceOnce address.postcode) }

/-! ## Helper lemmas -/

/-- A successful association-list lookup returns one of the stored values. -/
theorem lookup_mem_snd {l : List (String × String)} {k m : String}
    (h : l.lookup k = some m) : m ∈ l.map Prod.snd := by
  induction l with
  | nil => simp [List.lookup] at h
  | cons p ps ih =>
    cases p with
    | mk k2 v =>
      simp only [List.lookup] at h
      split at h
      · cases h
        simp
      · simp only [List.map_cons, List.mem_cons]
        exact Or.inr (ih h)

/-- No inherited `Object.prototype` property name is an own key of the
card message table. -/
theorem proto_not_in_table {code : String}
    (h : code ∈ objectPrototypeKeys) :
    cardErrorMessages.lookup code = none := by
  simp only [objectPrototypeKeys, List.mem_cons, List.not_mem_nil,
    or_false] at h
  rcases h with rfl | rfl | rfl | rfl | rfl | rfl | rfl | rfl | rfl | rfl |
    rfl | rfl <;> decide

/-- When `code` is no inherited prototype key, `getErrorMessageForCode`
either misses (null) or returns a string from the card message table. -/
theorem getErrorMessageForCode_cases (code : String)
    (h : code ∉ objectPrototypeKeys) :
    getErrorMessageForCode code = none ∨
    ∃ m, m ∈ cardErrorMessages.map Prod.snd ∧
      getErrorMessageForCode code = some (MessageValue.str m) := by
  rcases hl : cardErrorMessages.lookup code with _ | v
  · left
    unfold getErrorMessageForCode jsObjectGet
    rw [hl, if_neg h]
  · by_cases hv : v = ""
    · left
      unfold getErrorMessageForCode jsObjectGet
      rw [hl]
      show (if v = "" then (none : Option MessageValue)
        else some (.str v)) = none
      rw [if_pos hv]
    · right
      refine ⟨v, lookup_mem_snd hl, ?_⟩
      unfold getErrorMessageForCode jsObjectGet
      rw [hl]
      show (if v = "" then (none : Option MessageValue)
        else some (.str v)) = some (.str v)
      rw [if_neg hv]

/-- When `code` is an inherited prototype key, `getErrorMessageForCode`
returns the inherited truthy non-string member. -/
theorem getErrorMessageForCode_proto (code : String)
    (h : code ∈ objectPrototypeKeys) :
    getErrorMessageForCode code = some (.protoMember code) := by
  unfold getErrorMessageForCode jsObjectGet
  rw [proto_not_in_table h, if_pos h]

/-- Removing the first space from a list that has none is the identity. -/
theorem removeFirstSpace_of_not_mem {l : List Char} (h : ' ' ∉ l) :
    removeFirstSpace l = l := by
  induction l with
  | nil => rfl
  | cons c cs ih =>
    rw [List.mem_cons, not_or] at h
    rw [removeFirstSpace, if_neg (fun hc => h.1 hc.symm), ih h.2]

/-- Removing the first space removes exactly the first occurrence. -/
theorem removeFirstSpace_append {l₁ l₂ : List Char} (h : ' ' ∉ l₁) :
    removeFirstSpace (l₁ ++ ' ' :: l₂) = l₁ ++ l₂ := by
  induction l₁ with
  | nil => simp [removeFirstSpace]
  | cons c cs ih =>
    rw [List.mem_cons, not_or] at h
    rw [List.cons_append, removeFirstSpace, if_neg (fun hc => h.1 hc.symm),
      ih h.2, List.cons_append]

/-- `Char.ofNat` on a valid scalar value round-trips through `toNat`. -/
theorem toNat_ofNat_of_valid {n : Nat} (h : n.isValidChar) :
    (Char.ofNat n).toNat = n := by
  rw [Char.ofNat, dif_pos h]
  simp [Char.ofNatAux, Char.toNat, UInt32.toNat]

/-- ASCII upper-casing is idempotent. -/
theorem char_toUpper_idem (c : Char) : c.toUpper.toUpper = c.toUpper := by
  unfold Char.toUpper
  by_cases h : c.toNat ≥ 97 ∧ c.toNat ≤ 122
  · rw [if_pos h]
    have hv : (c.toNat - 32).isValidChar := Or.inl (by omega)
    have hval : (Char.ofNat (c.toNat - 32)).toNat = c.toNat - 32 :=
      toNat_ofNat_of_valid hv
    rw [if_neg]
    rw [hval]
    omega
  · rw [if_neg h, if_neg h]

/-- Upper-casing maps the space character to itself and nothing else to a
space. -/
theorem char_toUpper_eq_space_iff (c : Char) : c.toUpper = ' ' ↔ c = ' ' := by
  constructor
  · intro h
    unfold Char.toUpper at h
    by_cases hc : c.toNat ≥ 97 ∧ c.toNat ≤ 122
    · rw [if_pos hc] at h
      have hv : (c.toNat - 32).isValidChar := Or.inl (by omega)
      have hval : (Char.ofNat (c.toNat - 32)).toNat = c.toNat - 32 :=
        toNat_ofNat_of_valid hv
      rw [h] at hval
      have hsp : (' ' : Char).toNat = 32 := by decide
      omega
    · rw [if_neg hc] at h
      exact h
  · intro h
    subst h
    decide

/-- Upper-casing a character list preserves the number of spaces. -/
theorem count_space_map_toUpper (l : List Char) :
    (l.map Char.toUpper).count ' ' = l.count ' ' := by
  induction l with
  | nil => rfl
  | cons c cs ih =>
    by_cases hc : c = ' '
    · subst hc
      simp only [List.map_cons, List.count_cons, ih]
      norm_num [char_toUpper_eq_space_iff]
    · simp only [List.map_cons, List.count_cons, ih]
      have h2 : ¬ c.toUpper = ' ' := fun h => hc ((char_toUpper_eq_space_iff c).1 h)
      simp [hc, h2]

/-- Removing the first space from a list holding at most one space leaves
none. -/
theorem count_space_removeFirstSpace {l : List Char}
    (h : l.count ' ' ≤ 1) : (removeFirstSpace l).count ' ' = 0 := by
  induction l with
  | nil => rfl
  | cons c cs ih =>
    by_cases hc : c = ' '
    · subst hc
      rw [removeFirstSpace, if_pos rfl]
      rw [List.count_cons_self] at h
      rw [List.count_eq_zero]
      intro hmem
      have := List.count_pos_iff.mpr hmem
      omega
    · rw [removeFirstSpace, if_neg hc]
      rw [List.count_cons_of_ne (fun hh => hc hh.symm)] at h
      rw [List.count_cons_of_ne (fun hh => hc hh.symm)]
      exact ih h

/-- Double ASCII upper-casing of a character list collapses. -/
theorem map_toUpper_idem (l : List Char) :
    (l.map Char.toUpper).map Char.toUpper = l.map Char.toUpper := by
  rw [List.map_map]
  exact List.map_congr_left (fun c _ => char_toUpper_idem c)

/-! ## Claim theorems -/

/-- Claim C1 (counterexample): the claim states that `getPaymentRequest` maps
`countryCode = "PR"` to `country = "US"`; on a concrete input with
`countryCode = "PR"` the resulting config has `country = "PR"`, not
`"US"` — only the empty/falsy case is remapped there. -/
theorem claim_C1_counterexample :
    (getPaymentRequest { publicKey := "pk_test", stripeTotalLabel := "" }
      { total := { label := "Total", value := 1000 },
        currencyCode := "usd",
        countryCode := "PR",
        shippingRequired := false,
        cartTotalItems := [] }).country = "PR" ∧
    ("PR" : String) ≠ "US" := by
  exact ⟨rfl, by decide⟩

/-- Claim C1 (amended): in `getPaymentRequest` only an empty/falsy `countryCode`
is replaced by `"US"`, and every non-empty code — `"PR"` included — is
passed through unchanged; the `"PR"` → `"US"` remap is performed by
`createPaymentRequestUsingCart`, which otherwise passes the cart's country
code through. -/
theorem claim_C1_amended (sd : StripeServerData)
    (args : GetPaymentRequestArgs) (needsPayerPhone : Bool)
    (cart : CartResponse) :
    (args.countryCode = "" → (getPaymentRequest sd args).country = "US") ∧
    (args.countryCode ≠ "" →
      (getPaymentRequest sd args).country = args.countryCode) ∧
    (cart.order_data.country_code = "PR" →
      (createPaymentRequestUsingCart needsPayerPhone cart).country = "US") ∧
    (cart.order_data.country_code ≠ "PR" →
      (createPaymentRequestUsingCart needsPayerPhone cart).country =
        cart.order_data.country_code) := by
  refine ⟨fun h => ?_, fun h => ?_, fun h => ?_, fun h => ?_⟩ <;>
    simp [getPaymentRequest, createPaymentRequestUsingCart, h]

/-- Claim C1 (witness): the amended theorem applied at concrete inputs. -/
theorem claim_C1_witness :
    (getPaymentRequest { publicKey := "pk_test", stripeTotalLabel := "" }
      { total := { label := "Total", value := 5 },
        currencyCode := "usd",
        countryCode := "CA",
        shippingRequired := true,
        cartTotalItems := [] }).country = "CA" ∧
    (createPaymentRequestUsingCart true
      { order_data :=
          { total := { label := "T", amount := 1 },
            currency := "usd",
            country_code := "PR",
            displayItems := [] },
        shipping_required := true }).country = "US" :=
  ⟨(claim_C1_amended { publicKey := "pk_test", stripeTotalLabel := "" }
      { total := { label := "Total", value := 5 },
        currencyCode := "usd",
        countryCode := "CA",
        shippingRequired := true,
        cartTotalItems := [] } true
      { order_data :=
          { total := { label := "T", amount := 1 },
            currency := "usd",
            country_code := "PR",
            displayItems := [] },
        shipping_required := true }).2.1 (by decide),
   (claim_C1_amended { publicKey := "pk_test", stripeTotalLabel := "" }
      { total := { label := "Total", value := 5 },
        currencyCode := "usd",
        countryCode := "CA",
        shippingRequired := true,
        cartTotalItems := [] } true
      { order_data :=
          { total := { label := "T", amount := 1 },
            currency := "usd",
            country_code := "PR",
            displayItems := [] },
        shipping_required := true }).2.2.1 (by decide)⟩

/-- Claim C2 (code-bug evaluation): each of the five non-friendly error types is
recognized by `isNonFriendlyError`, yet `getErrorMessageForTypeAndCode`
returns null for it instead of the generic fallback message: the source's
`case isNonFriendlyError( type ):` label evaluates to a boolean, and a JS
`switch` compares it to the string discriminant under strict equality, so
the generic-fallback branch can never be taken. -/
theorem claim_C2_bug_evaluation :
    (isNonFriendlyError errorTypes.INVALID_REQUEST = true ∧
      getErrorMessageForTypeAndCode errorTypes.INVALID_REQUEST "" = none) ∧
    (isNonFriendlyError errorTypes.API_CONNECTION = true ∧
      getErrorMessageForTypeAndCode errorTypes.API_CONNECTION "" = none) ∧
    (isNonFriendlyError errorTypes.API_ERROR = true ∧
      getErrorMessageForTypeAndCode errorTypes.API_ERROR "" = none) ∧
    (isNonFriendlyError errorTypes.AUTHENTICATION_ERROR = true ∧
      getErrorMessageForTypeAndCode errorTypes.AUTHENTICATION_ERROR "" =
        none) ∧
    (isNonFriendlyError errorTypes.RATE_LIMIT_ERROR = true ∧
      getErrorMessageForTypeAndCode errorTypes.RATE_LIMIT_ERROR "" = none) ∧
    (∀ type : String,
      jsStrictEq (.str type) (.bool (isNonFriendlyError type)) = false) := by
  refine ⟨by decide, by decide, by decide, by decide, by decide,
    fun type => rfl⟩

/-- Claim C5: classification of the resolved capability-probe result: a falsy
result yields canPay = false; a truthy result with truthy `applePay` yields
apple_pay; any other truthy result (the empty object included) yields
payment_request_api. -/
theorem claim_C5_capability :
    canDoPaymentRequest none = { canPay := false, requestType := none } ∧
    (∀ r : CanMakePaymentResult, r.applePay = true →
      canDoPaymentRequest (some r) =
        { canPay := true, requestType := some "apple_pay" }) ∧
    (∀ r : CanMakePaymentResult, r.applePay = false →
      canDoPaymentRequest (some r) =
        { canPay := true, requestType := some "payment_request_api" }) := by
  refine ⟨rfl, fun r h => ?_, fun r h => ?_⟩ <;>
    simp [canDoPaymentRequest, h]

/-- Claim C5 (witness): the classification applied to the three concrete probe
results named by the spec. -/
theorem claim_C5_witness :
    canDoPaymentRequest (some { applePay := true }) =
      { canPay := true, requestType := some "apple_pay" } ∧
    canDoPaymentRequest (some { applePay := false }) =
      { canPay := true, requestType := some "payment_request_api" } :=
  ⟨claim_C5_capability.2.1 { applePay := true } (by decide),
   claim_C5_capability.2.2 { applePay := false } (by decide)⟩

/-- Claim C8: `displayItems` is the 1:1, order-preserving image of
`cartTotalItems`: same length, and the item at every index is the source
item's label with its `value` as `amount` (so nothing is filtered or
deduplicated). -/
theorem claim_C8_displayItems (sd : StripeServerData)
    (args : GetPaymentRequestArgs) :
    (getPaymentRequest sd args).displayItems.length =
      args.cartTotalItems.length ∧
    ∀ i : Nat,
      (getPaymentRequest sd args).displayItems[i]? =
        (args.cartTotalItems[i]?).map
          (fun item => { label := item.label, amount := item.value }) := by
  refine ⟨?_, fun i => ?_⟩ <;>
    simp [getPaymentRequest, normalizeLineItems]

/-- Claim C9: the update object computed by `updatePaymentRequest` (and by
`updatePaymentRequestWithCart`) carries exactly `total`, `currency` and
`displayItems`; applying it to a handle's configuration changes those three
fields to the computed values and leaves `country`, `requestPayerName`,
`requestPayerEmail`, `requestPayerPhone` and `requestShipping`
unchanged. -/
theorem claim_C9_update_frame (opts : PaymentRequestOptions)
    (sd : StripeServerData) (total : CartTotalItem) (currencyCode : String)
    (cartTotalItems : List CartTotalItem) (cart : CartResponse) :
    (applyPaymentRequestUpdate opts
        (updatePaymentRequest sd total currencyCode cartTotalItems)).country =
      opts.country ∧
    (applyPaymentRequestUpdate opts
        (updatePaymentRequest sd total currencyCode
          cartTotalItems)).requestPayerName = opts.requestPayerName ∧
    (applyPaymentRequestUpdate opts
        (updatePaymentRequest sd total currencyCode
          cartTotalItems)).requestPayerEmail = opts.requestPayerEmail ∧
    (applyPaymentRequestUpdate opts
        (updatePaymentRequest sd total currencyCode
          cartTotalItems)).requestPayerPhone = opts.requestPayerPhone ∧
    (applyPaymentRequestUpdate opts
        (updatePaymentRequest sd total currencyCode
          cartTotalItems)).requestShipping = opts.requestShipping ∧
    (applyPaymentRequestUpdate opts
        (updatePaymentRequest sd total currencyCode cartTotalItems)).total =
      getTotalPaymentItem sd total ∧
    (applyPaymentRequestUpdate opts
        (updatePaymentRequest sd total currencyCode cartTotalItems)).currency =
      currencyCode ∧
    (applyPaymentRequestUpdate opts
        (updatePaymentRequest sd total currencyCode
          cartTotalItems)).displayItems = normalizeLineItems cartTotalItems ∧
    (applyPaymentRequestUpdate opts
        (updatePaymentRequestWithCart cart)).country = opts.country ∧
    (applyPaymentRequestUpdate opts
        (updatePaymentRequestWithCart cart)).requestPayerName =
      opts.requestPayerName ∧
    (applyPaymentRequestUpdate opts
        (updatePaymentRequestWithCart cart)).requestPayerEmail =
      opts.requestPayerEmail ∧
    (applyPaymentRequestUpdate opts
        (updatePaymentRequestWithCart cart)).requestPayerPhone =
      opts.requestPayerPhone ∧
    (applyPaymentRequestUpdate opts
        (updatePaymentRequestWithCart cart)).requestShipping =
      opts.requestShipping :=
  ⟨rfl, rfl, rfl, rfl, rfl, rfl, rfl, rfl, rfl, rfl, rfl, rfl, rfl⟩

/-- Claim C3 (counterexample): the claim states that `pluckAddress` removes ALL
spaces from the postcode; on the spec's own example `" sw1a 1aa "` the
source's `replace( ' ', '' )` removes only the first space, giving
`"SW1A 1AA "`, not `"SW1A1AA"`. -/
theorem claim_C3_counterexample :
    (pluckAddress { country := "GB", state := "LDN", city := "London", postcode := " sw1a 1aa " }).postcode = "SW1A 1AA " ∧
    ("SW1A 1AA " : String) ≠ "SW1A1AA" := by
  exact ⟨by decide, by decide⟩

/-- Claim C3 (amended): `pluckAddress` returns `{ country, state, city,
postcode }` with the first three fields copied and `postcode` equal to the
input postcode with only its FIRST space removed, upper-cased (a space-free
postcode is only upper-cased); on the example `" sw1a 1aa "` the result is
`"SW1A 1AA "`. -/
theorem claim_C3_amended (a : Address) :
    (pluckAddress a).country = a.country ∧
    (pluckAddress a).state = a.state ∧
    (pluckAddress a).city = a.city ∧
    (∀ l₁ l₂ : List Char, ' ' ∉ l₁ →
      a.postcode = String.mk (l₁ ++ ' ' :: l₂) →
      (pluckAddress a).postcode =
        String.mk ((l₁ ++ l₂).map Char.toUpper)) ∧
    (' ' ∉ a.postcode.data →
      (pluckAddress a).postcode =
        String.mk (a.postcode.data.map Char.toUpper)) ∧
    (pluckAddress { country := "GB", state := "LDN", city := "London", postcode := " sw1a 1aa " }).postcode = "SW1A 1AA " := by
  refine ⟨rfl, rfl, rfl, fun l₁ l₂ h1 h2 => ?_, fun h => ?_, by decide⟩
  · show jsToUpperCase (jsReplaceSpaceOnce a.postcode) =
      String.mk ((l₁ ++ l₂).map Char.toUpper)
    rw [h2]
    show String.mk ((removeFirstSpace (l₁ ++ ' ' :: l₂)).map Char.toUpper) =
      String.mk ((l₁ ++ l₂).map Char.toUpper)
    rw [removeFirstSpace_append h1]
  · show jsToUpperCase (jsReplaceSpaceOnce a.postcode) =
      String.mk (a.postcode.data.map Char.toUpper)
    show String.mk ((removeFirstSpace a.postcode.data).map Char.toUpper) =
      String.mk (a.postcode.data.map Char.toUpper)
    rw [removeFirstSpace_of_not_mem h]

/-- Claim C3 (witness): the amended theorem applied at a concrete address whose
postcode `"ab1 2cd"` splits as `"ab1" ++ ' ' :: "2cd"`. -/
theorem claim_C3_witness :
    (pluckAddress { country := "GB", state := "ENG", city := "Leeds", postcode := "ab1 2cd" }).postcode =
      String.mk ((['a', 'b', '1'] ++ ['2', 'c', 'd']).map Char.toUpper) :=
  (claim_C3_amended { country := "GB", state := "ENG", city := "Leeds", postcode := "ab1 2cd" }).2.2.2.1 ['a', 'b', '1'] ['2', 'c', 'd']
    (by decide) (by decide)

/-- Claim C4 (counterexample): `pluckAddress` is not idempotent: on the record
with postcode `" sw1a 1aa "` one application gives `"SW1A 1AA "`, and a
second application removes a further space, giving `"SW1A1AA "`. -/
theorem claim_C4_counterexample :
    pluckAddress (pluckAddress { country := "GB", state := "LDN", city := "London", postcode := " sw1a 1aa " }) ≠
      pluckAddress { country := "GB", state := "LDN", city := "London", postcode := " sw1a 1aa " } := by
  decide

/-- Claim C4 (amended): `pluckAddress` is idempotent on every address record
whose postcode contains at most one space (after the single removal no
space is left, and upper-casing is idempotent); with two or more spaces a
second application removes a further space. -/
theorem claim_C4_amended (a : Address)
    (h : a.postcode.data.count ' ' ≤ 1) :
    pluckAddress (pluckAddress a) = pluckAddress a := by
  have h1 : (removeFirstSpace a.postcode.data).count ' ' = 0 :=
    count_space_removeFirstSpace h
  have h3 : ' ' ∉ (removeFirstSpace a.postcode.data).map Char.toUpper := by
    rw [← List.count_eq_zero, count_space_map_toUpper]
    exact h1
  have key : jsToUpperCase (jsReplaceSpaceOnce
      (jsToUpperCase (jsReplaceSpaceOnce a.postcode))) =
      jsToUpperCase (jsReplaceSpaceOnce a.postcode) := by
    show String.mk ((removeFirstSpace
        ((removeFirstSpace a.postcode.data).map Char.toUpper)).map
          Char.toUpper) =
      String.mk ((removeFirstSpace a.postcode.data).map Char.toUpper)
    rw [removeFirstSpace_of_not_mem h3, map_toUpper_idem]
  show ({ country := a.country,
          state := a.state,
          city := a.city,
          postcode := jsToUpperCase (jsReplaceSpaceOnce
            (jsToUpperCase (jsReplaceSpaceOnce a.postcode))) } : Address) =
    { country := a.country,
      state := a.state,
      city := a.city,
      postcode := jsToUpperCase (jsReplaceSpaceOnce a.postcode) }
  rw [key]

/-- Claim C4 (witness): the amended theorem applied at a concrete address whose
postcode holds exactly one space. -/
theorem claim_C4_witness :
    pluckAddress (pluckAddress { country := "GB", state := "ENG", city := "Leeds", postcode := "ab1 2cd" }) =
      pluckAddress { country := "GB", state := "ENG", city := "Leeds", postcode := "ab1 2cd" } :=
  claim_C4_amended { country := "GB", state := "ENG", city := "Leeds", postcode := "ab1 2cd" } (by decide)

/-- Claim C6 (counterexample): the claim states that every output is the
email message, the generic fallback, a card-table message, the empty
string, or null; at `(card_error, "constructor")` the table lookup walks
the prototype chain and `messages[ code ] || null` passes the inherited
truthy `Object.prototype.constructor` through, which is none of the five
claimed outcomes. -/
theorem claim_C6_counterexample :
    getErrorMessageForTypeAndCode errorTypes.CARD_ERROR "constructor" =
      some (MessageValue.protoMember "constructor") ∧
    some (MessageValue.protoMember "constructor") ≠
      some (MessageValue.str invalidEmailMessage) ∧
    some (MessageValue.protoMember "constructor") ≠
      some (MessageValue.str genericErrorMessage) ∧
    MessageValue.protoMember "constructor" ∉
      cardErrorMessages.map (fun p => MessageValue.str p.2) ∧
    some (MessageValue.protoMember "constructor") ≠
      some (MessageValue.str "") ∧
    some (MessageValue.protoMember "constructor") ≠
      (none : Option MessageValue) := by
  decide

/-- Claim C6 (amended): for every `(type, code)` pair whose code is not an
inherited `Object.prototype` property name, the classifier returns exactly
one value — the fixed email message, the generic fallback, a message from
the card-code table, the empty string, or null; when the type is
card_error and the code names an inherited prototype member outside the
table, the classifier instead leaks that inherited truthy non-string
value; and equal inputs give equal outputs in every case. -/
theorem claim_C6_amended (type code : String) :
    (code ∉ objectPrototypeKeys →
      (getErrorMessageForTypeAndCode type code =
          some (MessageValue.str invalidEmailMessage) ∨
       getErrorMessageForTypeAndCode type code =
          some (MessageValue.str genericErrorMessage) ∨
       (∃ m, m ∈ cardErrorMessages.map Prod.snd ∧
          getErrorMessageForTypeAndCode type code =
            some (MessageValue.str m)) ∨
       getErrorMessageForTypeAndCode type code =
          some (MessageValue.str "") ∨
       getErrorMessageForTypeAndCode type code = none)) ∧
    (type = errorTypes.CARD_ERROR → code ∈ objectPrototypeKeys →
      getErrorMessageForTypeAndCode type code =
        some (MessageValue.protoMember code)) ∧
    (∀ type2 code2 : String, type = type2 → code = code2 →
      getErrorMessageForTypeAndCode type code =
        getErrorMessageForTypeAndCode type2 code2) := by
  refine ⟨fun hp => ?_, fun ht hp => ?_,
    fun type2 code2 h1 h2 => by rw [h1, h2]⟩
  · unfold getErrorMessageForTypeAndCode
    split
    · exact Or.inl rfl
    · split
      · exact Or.inr (Or.inl rfl)
      · split
        · rcases getErrorMessageForCode_cases code hp with hc | ⟨m, hm, hc⟩
          · exact Or.inr (Or.inr (Or.inr (Or.inr hc)))
          · exact Or.inr (Or.inr (Or.inl ⟨m, hm, hc⟩))
        · split
          · exact Or.inr (Or.inr (Or.inr (Or.inl rfl)))
          · exact Or.inr (Or.inr (Or.inr (Or.inr rfl)))
  · subst ht
    have hchain : getErrorMessageForTypeAndCode errorTypes.CARD_ERROR code =
        getErrorMessageForCode code := rfl
    rw [hchain]
    exact getErrorMessageForCode_proto code hp

/-- Claim C6 (witness): the amended theorem applied at concrete inputs —
a non-prototype code exercising the five-outcome part, a prototype code
exercising the leak part, and determinism at a concrete pair written two
syntactically different but equal ways. -/
theorem claim_C6_witness :
    (getErrorMessageForTypeAndCode errorTypes.CARD_ERROR "expired_card" =
        some (MessageValue.str invalidEmailMessage) ∨
     getErrorMessageForTypeAndCode errorTypes.CARD_ERROR "expired_card" =
        some (MessageValue.str genericErrorMessage) ∨
     (∃ m, m ∈ cardErrorMessages.map Prod.snd ∧
        getErrorMessageForTypeAndCode errorTypes.CARD_ERROR "expired_card" =
          some (MessageValue.str m)) ∨
     getErrorMessageForTypeAndCode errorTypes.CARD_ERROR "expired_card" =
        some (MessageValue.str "") ∨
     getErrorMessageForTypeAndCode errorTypes.CARD_ERROR "expired_card" =
        none) ∧
    getErrorMessageForTypeAndCode errorTypes.CARD_ERROR "toString" =
      some (MessageValue.protoMember "toString") ∧
    getErrorMessageForTypeAndCode "validation_error" "zz" =
      getErrorMessageForTypeAndCode errorTypes.VALIDATION_ERROR "zz" :=
  ⟨(claim_C6_amended errorTypes.CARD_ERROR "expired_card").1 (by decide),
   (claim_C6_amended errorTypes.CARD_ERROR "toString").2.1 rfl (by decide),
   (claim_C6_amended "validation_error" "zz").2.2 errorTypes.VALIDATION_ERROR
     "zz" (by decide) (by decide)⟩

/-- Claim C7: `getStripeServerData` fails with a hard error exactly when the
settings blob is absent, and `getApiKey` fails exactly when the blob is
absent or its `publicKey` is falsy; present values are returned
unchanged, never defaulted. -/
theorem claim_C7_config_errors :
    getStripeServerData none =
      Except.error "Stripe initialization data is not available" ∧
    (∀ d : StripeServerData, getStripeServerData (some d) = Except.ok d) ∧
    (∀ s : Option StripeServerData,
      (∃ e, getApiKey s = Except.error e) ↔
        (s = none ∨ ∃ d, s = some d ∧ d.publicKey = "")) ∧
    (∀ d : StripeServerData, d.publicKey ≠ "" →
      getApiKey (some d) = Except.ok d.publicKey) := by
  refine ⟨rfl, fun d => rfl, fun s => ?_, fun d h => ?_⟩
  · constructor
    · intro he
      cases s with
      | none => exact Or.inl rfl
      | some d =>
        by_cases hk : d.publicKey = ""
        · exact Or.inr ⟨d, rfl, hk⟩
        · rcases he with ⟨e, he⟩
          rw [show getApiKey (some d) =
            (if d.publicKey = "" then
              Except.error "There is no api key available for stripe. Make sure it is available on the wc.stripe_data.stripe.key property."
            else Except.ok d.publicKey) from rfl, if_neg hk] at he
          cases he
    · intro hcase
      rcases hcase with h | ⟨d, hs, hk⟩
      · subst h
        exact ⟨"Stripe initialization data is not available", rfl⟩
      · subst hs
        refine ⟨"There is no api key available for stripe. Make sure it is available on the wc.stripe_data.stripe.key property.", ?_⟩
        show (if d.publicKey = "" then
            Except.error "There is no api key available for stripe. Make sure it is available on the wc.stripe_data.stripe.key property."
          else Except.ok d.publicKey) = _
        rw [if_pos hk]
  · show (if d.publicKey = "" then
        Except.error "There is no api key available for stripe. Make sure it is available on the wc.stripe_data.stripe.key property."
      else Except.ok d.publicKey) = Except.ok d.publicKey
    rw [if_neg h]

/-- Claim C7 (witness): the success side applied at a concrete settings blob. -/
theorem claim_C7_witness :
    getApiKey (some { publicKey := "pk_live_1", stripeTotalLabel := "" }) =
      Except.ok "pk_live_1" :=
  claim_C7_config_errors.2.2.2
    { publicKey := "pk_live_1", stripeTotalLabel := "" } (by decide)

/-- Claim C10: `getPaymentRequest` always sets `requestPayerName`,
`requestPayerEmail` and `requestPayerPhone` to `true`, whatever the
input. -/
theorem claim_C10_payer_flags (sd : StripeServerData)
    (args : GetPaymentRequestArgs) :
    (getPaymentRequest sd args).requestPayerName = true ∧
    (getPaymentRequest sd args).requestPayerEmail = true ∧
    (getPaymentRequest sd args).requestPayerPhone = true :=
  ⟨rfl, rfl, rfl⟩

end StripeUtils
